import Mathlib

/-
Shallow embedding of src/Python/github_sync_skript.py.

The script has three components: a Logger (append-only log file), an
EnvLoader (KEY=VALUE config parser) and a GitSync orchestrator that runs
the external git binary. External effects are modelled explicitly:

  - the filesystem seen by EnvLoader is a map from a path to a file
    content, where a file content is a list of read events (a line, or an
    I/O error raised mid-iteration of the Python for-loop over the file);
  - the git subprocess is an oracle from a command (argument vector) to
    either a completed process (returncode, stdout, stderr) or a raised
    launch exception;
  - log writes and primitive invocations are recorded as an event list,
    so call order and logging can be stated as theorems.

String helpers reproduce the exact Python semantics used by the script:
str.strip() and str.strip(chars) remove ALL leading and trailing
characters of the set, and the "in" operator is a substring test.
-/

namespace GithubSync

/-! ### String helpers (Python semantics) -/

/-- Python str.strip() on a char list: drop all leading and trailing
whitespace characters. -/
def stripWS (l : List Char) : List Char :=
  ((l.dropWhile Char.isWhitespace).reverse.dropWhile Char.isWhitespace).reverse

/-- Python str.strip(chars) on a char list: drop all leading and trailing
characters belonging to the set cs (no matching of pairs involved). -/
def stripSet (cs : List Char) (l : List Char) : List Char :=
  ((l.dropWhile cs.contains).reverse.dropWhile cs.contains).reverse

/-- Python str.strip() as a String function. -/
def pyTrim (s : String) : String := ⟨stripWS s.toList⟩

/-- Boolean test that the first list starts the second one. -/
def leadsList : List Char → List Char → Bool
  | [], _ => true
  | _ :: _, [] => false
  | p :: ps, x :: xs => p == x && leadsList ps xs

/-- Boolean substring test on char lists (Python operator "in"). -/
def hasSubList (pat : List Char) : List Char → Bool
  | [] => leadsList pat []
  | x :: xs => leadsList pat (x :: xs) || hasSubList pat xs

/-- Python test `pat in s` for strings. -/
def containsSub (s pat : String) : Bool := hasSubList pat.toList s.toList

/-- Python str.lower() on a char list (ASCII letters, which is all the
script compares; structural so that proofs can evaluate it). -/
def lowerChars : List Char → List Char
  | [] => []
  | c :: cs => c.toLower :: lowerChars cs

/-- Python str.lower() as a String function. -/
def pyLower (s : String) : String := ⟨lowerChars s.toList⟩

/-- Drop every leading occurrence of the character c, one at a time. -/
def dropLeadChar (c : Char) : List Char → List Char
  | [] => []
  | x :: xs => if x = c then dropLeadChar c xs else x :: xs

/-- Drop every trailing occurrence of the character c. -/
def dropTrailChar (c : Char) (l : List Char) : List Char :=
  (dropLeadChar c l.reverse).reverse

/-! ### EnvLoader (github_sync_skript.py lines 136-287) -/

/-- The internal dictionary `_env_vars` of EnvLoader, modelled as a map
from key to optional value. -/
abbrev EnvMap := String → Option String

/-- The dictionary of a freshly constructed EnvLoader (line 170). -/
def emptyEnv : EnvMap := fun _ => none

/-- Python `self._env_vars[key] = value` (line 241): overwrite or add. -/
def envInsert (k v : String) (env : EnvMap) : EnvMap :=
  fun x => if x = k then some v else env x

/-- The value transformation of line 238:
`value.strip().strip(dquote).strip(squote)`. -/
def parseValue (s : String) : String :=
  ⟨stripSet ['\''] (stripSet ['"'] (stripWS s.toList))⟩

/-- Processing of one line of the .env file (lines 220-241): strip the
line, skip it unless it is nonempty, no comment and contains an equals
sign; otherwise split at the FIRST equals sign, strip the key, and apply
parseValue to the value part. -/
def parseLine (env : EnvMap) (raw : String) : EnvMap :=
  let line := pyTrim raw
  if line != "" && !(leadsList "#".toList line.toList) && line.toList.contains '=' then
    let key := pyTrim ⟨line.toList.takeWhile (fun c => c != '=')⟩
    let value := parseValue ⟨(line.toList.dropWhile (fun c => c != '=')).tail⟩
    envInsert key value env
  else env

/-- One event while iterating over the open file: either a line is
yielded, or the iteration raises (I/O or decoding error). -/
inductive ReadEvent where
  | line (s : String)
  | ioError (e : String)
deriving DecidableEq

/-- A path either does not exist, or opening it yields a list of read
events. -/
inductive FileContent where
  | absent
  | present (events : List ReadEvent)

/-- The filesystem seen by EnvLoader.load_env_file. -/
abbrev FS := String → FileContent

/-- The try-block of load_env_file (lines 214-253): process the lines in
order; an exception raised mid-iteration is caught, the method returns
False, and the entries already stored stay in the dictionary. -/
def processEvents : List ReadEvent → EnvMap → Bool × EnvMap
  | [], env => (true, env)
  | .line s :: rest, env => processEvents rest (parseLine env s)
  | .ioError _ :: _, env => (false, env)

/-- EnvLoader.load_env_file (lines 172-253): if the path does not exist,
return False without touching the dictionary (lines 205-212); otherwise
read the file line by line. -/
def load_env_file (fs : FS) (env_path : String) (env : EnvMap) : Bool × EnvMap :=
  match fs env_path with
  | .absent => (false, env)
  | .present events => processEvents events env

/-- EnvLoader.get_var (lines 255-287): `self._env_vars.get(key, default)`
with default None modelled as an Option argument. -/
def get_var (env : EnvMap) (key : String) (default : Option String) : Option String :=
  match env key with
  | some v => some v
  | none => default

/-! ### GitSync (github_sync_skript.py lines 290-750) -/

/-- Result of subprocess.run with capture_output=True, text=True. -/
structure CompletedProcess where
  returncode : Int
  stdout : String
  stderr : String
deriving DecidableEq

/-- Outcome of attempting to launch the external process: a completed
process, or an exception (binary missing, path inaccessible, ...) whose
str() is recorded. -/
inductive RunOutcome where
  | ok (r : CompletedProcess)
  | raised (e : String)
deriving DecidableEq

/-- The external git binary as an oracle from argument vector to run
outcome. -/
abbrev GitEnv := List String → RunOutcome

/-- GitSync._run_git_command (lines 359-421): run the command, return
(returncode == 0, stdout, stderr); any exception is caught and converted
to (False, empty string, str(e)). -/
def run_git_command (git : GitEnv) (command : List String) : Bool × String × String :=
  match git command with
  | .ok r => (r.returncode == 0, r.stdout, r.stderr)
  | .raised e => (false, "", e)

/-- The four primitive operations of the orchestrator. -/
inductive GitOp where
  | pull
  | addAll
  | commit
  | push
deriving DecidableEq

/-- One entry written by Logger.write_to_log_file: the message and the
headline of the banner line (timestamp omitted, it is wall-clock). -/
structure LogEntry where
  message : String
  headline : String
deriving DecidableEq

/-- Observable events of the orchestrator: a primitive operation starts
executing, or a log entry is appended to the log file. -/
inductive Event where
  | invoke (op : GitOp)
  | log (e : LogEntry)
deriving DecidableEq

/-- GitSync.pull (lines 423-473): run `git pull`; on failure append a log
entry with message "Git Pull Fehler:" plus newline plus the full stderr,
headlined "GitSync Error". -/
def pull (git : GitEnv) : Bool × List Event :=
  let r := run_git_command git ["git", "pull"]
  if r.1 then (true, [.invoke .pull])
  else (false, [.invoke .pull, .log ⟨"Git Pull Fehler:\n" ++ r.2.2, "GitSync Error"⟩])

/-- GitSync.add_all (lines 475-531): run `git add .`; on failure append a
log entry with message "Git Add Fehler:" plus newline plus the full
stderr, headlined "GitSync Error". -/
def add_all (git : GitEnv) : Bool × List Event :=
  let r := run_git_command git ["git", "add", "."]
  if r.1 then (true, [.invoke .addAll])
  else (false, [.invoke .addAll, .log ⟨"Git Add Fehler:\n" ++ r.2.2, "GitSync Error"⟩])

/-- GitSync.commit (lines 533-599): run `git commit -m message`; success
on exit code 0, or when the lowercased stdout or stderr contains
"nothing to commit"; otherwise failure with a log entry headlined
"GitSync Error". -/
def commit (git : GitEnv) (message : String) : Bool × List Event :=
  let r := run_git_command git ["git", "commit", "-m", message]
  if r.1 then (true, [.invoke .commit])
  else if containsSub (pyLower r.2.1) "nothing to commit"
      || containsSub (pyLower r.2.2) "nothing to commit" then
    (true, [.invoke .commit])
  else (false, [.invoke .commit, .log ⟨"Git Commit Fehler:\n" ++ r.2.2, "GitSync Error"⟩])

/-- GitSync.push (lines 601-652): run `git push`; on failure append a log
entry with message "Git Push Fehler:" plus newline plus the full stderr,
headlined "GitSync Error". -/
def push (git : GitEnv) : Bool × List Event :=
  let r := run_git_command git ["git", "push"]
  if r.1 then (true, [.invoke .push])
  else (false, [.invoke .push, .log ⟨"Git Push Fehler:\n" ++ r.2.2, "GitSync Error"⟩])

/-- GitSync.sync (lines 654-750): pull, then add_all, then commit, then
push, stopping at the first primitive returning False (fail-fast). -/
def sync (git : GitEnv) (commit_message : String) : Bool × List Event :=
  let p := pull git
  if !p.1 then (false, p.2)
  else
    let a := add_all git
    if !a.1 then (false, p.2 ++ a.2)
    else
      let c := commit git commit_message
      if !c.1 then (false, p.2 ++ a.2 ++ c.2)
      else
        let u := push git
        if !u.1 then (false, p.2 ++ a.2 ++ c.2 ++ u.2)
        else (true, p.2 ++ a.2 ++ c.2 ++ u.2)

/-- The sequence of primitive invocations in an event list. -/
def invokes : List Event → List GitOp
  | [] => []
  | .invoke op :: rest => op :: invokes rest
  | .log _ :: rest => invokes rest

/-- The sequence of log entries appended in an event list. -/
def logEntries : List Event → List LogEntry
  | [] => []
  | .invoke _ :: rest => logEntries rest
  | .log e :: rest => e :: logEntries rest

/-! ### GitSync construction (lines 319-357) -/

/-- The filesystem seen by the GitSync constructor: existence of a path,
and (never consulted by the constructor) whether the path is a valid git
repository. -/
structure PathFS where
  pathExists : String → Bool
  isGitRepo : String → Bool

/-- The constructed orchestrator: it records only the repository path. -/
structure GitSyncHandle where
  repo_path : String
deriving DecidableEq

/-- GitSync.__init__ (lines 319-357): store the path; raise ValueError
(modelled as Except.error) when the path does not exist. Nothing else is
validated. -/
def gitSyncInit (fs : PathFS) (repo_path : String) : Except String GitSyncHandle :=
  if fs.pathExists repo_path then .ok ⟨repo_path⟩
  else .error ("Repository-Pfad existiert nicht: " ++ repo_path)

/-! ### Spec-side models used to compare code with claim wording -/

/-- Modelled from the spec: claim C3 as stated, that is after trimming,
strip exactly ONE layer of matching leading and trailing single or
double quotes; a value with unmatched quotes or with several nested
layers keeps the remaining quote characters. -/
def specOneLayerValue (s : String) : String :=
  match stripWS s.toList with
  | [] => ⟨[]⟩
  | c :: rest =>
    if (c == '"' || c == '\'') && !rest.isEmpty && (rest.getLast? == some c) then
      ⟨rest.dropLast⟩
    else ⟨c :: rest⟩

/-- Modelled from the spec: claim C3 as amended, that is trim whitespace,
then remove ALL leading and ALL trailing double-quote characters, then
ALL leading and ALL trailing single-quote characters; no matching of
opening and closing quotes is required. -/
def specAmendedValue (s : String) : String :=
  ⟨dropTrailChar '\'' (dropLeadChar '\''
    (dropTrailChar '"' (dropLeadChar '"' (stripWS s.toList))))⟩

/-! ### Concrete fixtures used by witnesses and counterexamples -/

/-- A filesystem with no files at all. -/
def absentFS : FS := fun _ => .absent

/-- A filesystem whose only file raises a decoding error after its first
line was read. -/
def errorFS : FS := fun _ => .present [.line "A=1", .ioError "decode error"]

/-- The mapping left by a first successful load of the line A=1. -/
def firstLoadEnv : EnvMap := envInsert "A" "1" emptyEnv

/-- A filesystem holding a second file with the single line B=2. -/
def secondFileFS : FS := fun _ => .present [.line "B=2"]

/-- The five-line config file of the testable property in the spec. -/
def configFS : FS := fun p =>
  if p = ".env" then
    .present [.line "A=1", .line "# comment", .line "B=\"two\"",
      .line " ", .line "C=3=4"]
  else .absent

/-- A git oracle whose launch always raises (binary missing). -/
def gitMissing : GitEnv := fun _ => .raised "No such file or directory: git"

/-- A git oracle where every command exits 1 with stderr boom. -/
def gitBoom : GitEnv := fun _ => .ok ⟨1, "", "boom"⟩

/-- A git oracle where every command exits 1 with stderr fatal: err. -/
def gitFailAll : GitEnv := fun _ => .ok ⟨1, "", "fatal: err"⟩

/-- A git oracle where commit exits 1 but stdout carries the
nothing-to-commit message in mixed letter case. -/
def gitNothingToCommit : GitEnv := fun _ =>
  .ok ⟨1, "On branch main\nNothing To Commit, working tree clean", ""⟩

/-- A path filesystem where every path exists and none is a repository. -/
def fsExistsNoRepo : PathFS := ⟨fun _ => true, fun _ => false⟩

/-- A path filesystem where every path exists and all are repositories. -/
def fsExistsRepo : PathFS := ⟨fun _ => true, fun _ => true⟩

/-- A path filesystem where no path exists. -/
def fsNothingExists : PathFS := ⟨fun _ => false, fun _ => true⟩

/-! ### Helper lemmas -/

/-- envInsert never removes a stored key. -/
theorem envInsert_isSome (k v : String) (env : EnvMap) (x : String)
    (h : (env x).isSome = true) : ((envInsert k v env) x).isSome = true := by
  unfold envInsert
  split <;> simp [h]

/-- parseLine never removes a stored key. -/
theorem parseLine_isSome (env : EnvMap) (raw k : String)
    (h : (env k).isSome = true) : ((parseLine env raw) k).isSome = true := by
  unfold parseLine
  dsimp only
  split
  · exact envInsert_isSome _ _ env k h
  · exact h

/-- processEvents never removes a stored key. -/
theorem processEvents_isSome (events : List ReadEvent) (env : EnvMap) (k : String)
    (h : (env k).isSome = true) : (((processEvents events env).2) k).isSome = true := by
  induction events generalizing env with
  | nil => exact h
  | cons ev rest ih =>
    cases ev with
    | line s => exact ih (parseLine env s) (parseLine_isSome env s k h)
    | ioError e => exact h

/-- Processing a file whose read raises after a prefix of lines returns
False together with exactly the mapping built from that prefix. -/
theorem processEvents_partial (pre : List String) (e : String)
    (rest : List ReadEvent) (env : EnvMap) :
    processEvents (pre.map ReadEvent.line ++ .ioError e :: rest) env
      = (false, pre.foldl parseLine env) := by
  induction pre generalizing env with
  | nil => rfl
  | cons s ss ih => exact ih (parseLine env s)

/-! ### Claim theorems (EnvLoader error handling and invariants) -/

/-- C6: calling load_env_file on a path that does not exist returns
failure without raising and leaves the mapping empty, so get_var with
any key and any default afterwards returns the default. -/
theorem load_missing_path (fs : FS) (path k : String) (d : Option String)
    (h : fs path = .absent) :
    load_env_file fs path emptyEnv = (false, emptyEnv) ∧
    get_var (load_env_file fs path emptyEnv).2 k d = d := by
  constructor
  · simp [load_env_file, h]
  · simp [load_env_file, h, get_var, emptyEnv]

theorem load_missing_path_witness :
    load_env_file absentFS ".env" emptyEnv = (false, emptyEnv) ∧
    get_var (load_env_file absentFS ".env" emptyEnv).2 "ANYKEY" (some "fallback")
      = some "fallback" :=
  load_missing_path absentFS ".env" "ANYKEY" (some "fallback") rfl

/-- C9: loading is not atomic on error: when reading the file raises
after a prefix of lines has been parsed, load_env_file returns failure
but the mapping is exactly the one built from that prefix (the pairs
stored before the error remain, nothing is rolled back). -/
theorem load_not_atomic_on_error (fs : FS) (path : String) (pre : List String)
    (e : String) (rest : List ReadEvent) (env : EnvMap)
    (h : fs path = .present (pre.map ReadEvent.line ++ .ioError e :: rest)) :
    load_env_file fs path env = (false, pre.foldl parseLine env) := by
  unfold load_env_file
  rw [h]
  exact processEvents_partial pre e rest env

theorem load_not_atomic_on_error_witness :
    load_env_file errorFS ".env" emptyEnv
      = (false, ["A=1"].foldl parseLine emptyEnv) :=
  load_not_atomic_on_error errorFS ".env" ["A=1"] "decode error" [] emptyEnv rfl

/-- C10: load_env_file never removes entries from the mapping: every key
present before a call is still present afterwards (possibly with an
overwritten value), so a second load merges into the first. -/
theorem load_preserves_keys (fs : FS) (path : String) (env : EnvMap) (k : String)
    (h : (env k).isSome = true) :
    (((load_env_file fs path env).2) k).isSome = true := by
  unfold load_env_file
  split
  · exact h
  · exact processEvents_isSome _ env k h

theorem load_preserves_keys_witness :
    (firstLoadEnv "A").isSome = true ∧
    (((load_env_file secondFileFS ".env" firstLoadEnv).2) "A").isSome = true :=
  ⟨by decide, load_preserves_keys secondFileFS ".env" firstLoadEnv "A" (by decide)⟩

/-! ### Claim theorems (process launch and construction) -/

/-- C7: a failure to launch the external process is caught inside
run_git_command and converted into the failure-result triple
(false, empty stdout, the exception text as stderr); no launch failure
escapes. -/
theorem launch_failure_converted (git : GitEnv) (command : List String)
    (e : String) (h : git command = .raised e) :
    run_git_command git command = (false, "", e) := by
  unfold run_git_command
  rw [h]

theorem launch_failure_converted_witness :
    run_git_command gitMissing ["git", "pull"]
      = (false, "", "No such file or directory: git") :=
  launch_failure_converted gitMissing ["git", "pull"] _ rfl

/-- C8: constructing the orchestrator with a nonexistent path signals an
error and produces no handle; with an existing path it succeeds, and the
outcome depends only on path existence, never on whether the path is a
valid repository. -/
theorem init_requires_existing_path (fs : PathFS) (p : String) :
    (fs.pathExists p = false → ∀ h : GitSyncHandle, gitSyncInit fs p ≠ .ok h) ∧
    (fs.pathExists p = true → gitSyncInit fs p = .ok ⟨p⟩) ∧
    (∀ fs2 : PathFS, fs2.pathExists = fs.pathExists →
      gitSyncInit fs2 p = gitSyncInit fs p) := by
  refine ⟨?_, ?_, ?_⟩
  · intro hne h
    simp [gitSyncInit, hne]
  · intro hex
    simp [gitSyncInit, hex]
  · intro fs2 hagree
    unfold gitSyncInit
    rw [hagree]

theorem init_requires_existing_path_witness :
    gitSyncInit fsExistsNoRepo "/repo" = .ok ⟨"/repo"⟩ ∧
    gitSyncInit fsExistsRepo "/repo" = gitSyncInit fsExistsNoRepo "/repo" ∧
    gitSyncInit fsNothingExists "/repo" ≠ .ok ⟨"/repo"⟩ :=
  ⟨(init_requires_existing_path fsExistsNoRepo "/repo").2.1 rfl,
   (init_requires_existing_path fsExistsNoRepo "/repo").2.2 fsExistsRepo rfl,
   (init_requires_existing_path fsNothingExists "/repo").1 rfl ⟨"/repo"⟩⟩

end GithubSync

namespace GithubSync

/-! ### Claim theorems (config parsing) -/

/-- C4: loading the file with lines A=1, a comment, B="two" (quoted), a
whitespace-only line and C=3=4 succeeds and produces exactly the mapping
A to 1, B to two, C to 3=4: the comment and the blank line add nothing,
only the first equals sign splits, and a line without an equals sign
(checked on the extra input standalone) is silently ignored. -/
theorem load_concrete_file :
    (load_env_file configFS ".env" emptyEnv).1 = true ∧
    (∀ k, (load_env_file configFS ".env" emptyEnv).2 k =
      if k = "C" then some "3=4"
      else if k = "B" then some "two"
      else if k = "A" then some "1"
      else none) ∧
    (∀ env : EnvMap, parseLine env "standalone" = env) := by
  refine ⟨by decide, fun k => rfl, fun env => rfl⟩

/-- C3 counterexample: for the config line with key K and value made of
an unmatched leading double quote before abc, the loader stores plain
abc, stripping the unmatched quote, while the claim as stated (one
matching layer only, unmatched quotes kept) predicts that the quote
character stays in the value. -/
theorem value_strip_counterexample :
    (parseLine emptyEnv "K=\"abc") "K" = some "abc" ∧
    parseValue "\"abc" = "abc" ∧
    specOneLayerValue "\"abc" = "\"abc" ∧
    ("abc" : String) ≠ "\"abc" := by
  refine ⟨rfl, rfl, rfl, by decide⟩

/-- Membership in a one-element char list is equality with its element. -/
theorem contains_single (c x : Char) : [c].contains x = (x == c) := by
  cases h : x == c <;> simp [List.contains, List.elem, h]

/-- dropWhile over a one-character set is dropLeadChar. -/
theorem dropWhile_single (c : Char) (l : List Char) :
    l.dropWhile ([c].contains) = dropLeadChar c l := by
  induction l with
  | nil => rfl
  | cons x xs ih =>
    by_cases hx : x = c
    · simp [List.dropWhile_cons, contains_single, hx, ih, dropLeadChar]
    · simp [List.dropWhile_cons, contains_single, hx, dropLeadChar]

/-- stripSet over a one-character set drops that character from both
ends, with no matching involved. -/
theorem stripSet_single (c : Char) (l : List Char) :
    stripSet [c] l = dropTrailChar c (dropLeadChar c l) := by
  unfold stripSet dropTrailChar
  rw [dropWhile_single, dropWhile_single]

/-- C3 amended: for every value, the loader trims whitespace, then
removes all leading and trailing double-quote characters, then all
leading and trailing single-quote characters, with no matching of
opening and closing quotes required. -/
theorem value_strip_amended (v : String) :
    parseValue v = specAmendedValue v := by
  unfold parseValue specAmendedValue
  rw [stripSet_single, stripSet_single]

/-! ### Claim theorems (commit special case) -/

/-- C2: when the commit process launches and exits, commit reports
success iff the exit code is 0, or the exit code is nonzero and the
lowercased stdout or stderr contains the phrase nothing to commit; every
other nonzero exit is failure. -/
theorem commit_success_iff (git : GitEnv) (msg : String) (r : CompletedProcess)
    (h : git ["git", "commit", "-m", msg] = .ok r) :
    ((commit git msg).1 = true ↔
      (r.returncode = 0 ∨ (r.returncode ≠ 0 ∧
        (containsSub (pyLower r.stdout) "nothing to commit" = true ∨
         containsSub (pyLower r.stderr) "nothing to commit" = true)))) := by
  unfold commit run_git_command
  rw [h]
  dsimp only
  by_cases h0 : r.returncode = 0
  · simp [h0]
  · simp only [beq_iff_eq, h0, if_false]
    cases hc1 : containsSub (pyLower r.stdout) "nothing to commit" <;>
      cases hc2 : containsSub (pyLower r.stderr) "nothing to commit" <;>
        simp [hc1, hc2, h0]

theorem commit_success_iff_witness :
    (commit gitNothingToCommit "msg").1 = true :=
  (commit_success_iff gitNothingToCommit "msg"
      ⟨1, "On branch main\nNothing To Commit, working tree clean", ""⟩ rfl).mpr
    (Or.inr ⟨by decide, Or.inl (by decide)⟩)

end GithubSync

namespace GithubSync

/-! ### Claim theorems (sync orchestration and logging) -/

/-- invokes distributes over list append. -/
theorem invokes_append (xs ys : List Event) :
    invokes (xs ++ ys) = invokes xs ++ invokes ys := by
  induction xs with
  | nil => rfl
  | cons x rest ih => cases x <;> simp [invokes, ih]

/-- pull performs exactly one primitive invocation, namely pull. -/
theorem pull_invokes (git : GitEnv) : invokes (pull git).2 = [GitOp.pull] := by
  unfold pull
  dsimp only
  split <;> rfl

/-- add_all performs exactly one primitive invocation, namely addAll. -/
theorem add_all_invokes (git : GitEnv) : invokes (add_all git).2 = [GitOp.addAll] := by
  unfold add_all
  dsimp only
  split <;> rfl

/-- commit performs exactly one primitive invocation, namely commit. -/
theorem commit_invokes (git : GitEnv) (msg : String) :
    invokes (commit git msg).2 = [GitOp.commit] := by
  unfold commit
  dsimp only
  split
  · rfl
  · split <;> rfl

/-- push performs exactly one primitive invocation, namely push. -/
theorem push_invokes (git : GitEnv) : invokes (push git).2 = [GitOp.push] := by
  unfold push
  dsimp only
  split <;> rfl

/-- C1: sync executes the primitives in the exact order pull, add_all,
commit, push; it stops at the first primitive reporting failure, with no
later primitive invoked, and returns true iff all four report success. -/
theorem sync_order_fail_fast (git : GitEnv) (msg : String) :
    ((sync git msg).1 = true ↔
      ((pull git).1 = true ∧ (add_all git).1 = true ∧
       (commit git msg).1 = true ∧ (push git).1 = true)) ∧
    invokes (sync git msg).2 =
      (if (pull git).1 = false then [GitOp.pull]
       else if (add_all git).1 = false then [GitOp.pull, GitOp.addAll]
       else if (commit git msg).1 = false then
         [GitOp.pull, GitOp.addAll, GitOp.commit]
       else [GitOp.pull, GitOp.addAll, GitOp.commit, GitOp.push]) := by
  have hp := pull_invokes git
  have ha := add_all_invokes git
  have hc := commit_invokes git msg
  have hu := push_invokes git
  unfold sync
  dsimp only
  cases hb1 : (pull git).1 <;> cases hb2 : (add_all git).1 <;>
    cases hb3 : (commit git msg).1 <;> cases hb4 : (push git).1 <;>
      simp [hb1, hb2, hb3, hb4, invokes_append, hp, ha, hc, hu]

/-- C5 counterexample: when pull fails, the single appended log entry is
headlined with the fixed string GitSync Error, not with the operation
name Pull followed by Error as the claim states; the operation name only
appears inside the message text. -/
theorem log_headline_counterexample :
    (pull gitBoom).1 = false ∧
    logEntries (pull gitBoom).2 = [⟨"Git Pull Fehler:\nboom", "GitSync Error"⟩] ∧
    ("GitSync Error" : String) ≠ "Pull Error" := by
  refine ⟨rfl, rfl, by decide⟩

/-- C5 amended: on failure each primitive appends exactly one log entry;
its message is Git plus the operation name plus Fehler, a colon, a
newline and the full captured stderr, and its headline is the fixed
string GitSync Error, the same for all four operations. -/
theorem primitive_failure_logs_stderr (git : GitEnv) (msg : String) :
    ((pull git).1 = false → logEntries (pull git).2
        = [⟨"Git Pull Fehler:\n" ++ (run_git_command git ["git", "pull"]).2.2,
            "GitSync Error"⟩]) ∧
    ((add_all git).1 = false → logEntries (add_all git).2
        = [⟨"Git Add Fehler:\n" ++ (run_git_command git ["git", "add", "."]).2.2,
            "GitSync Error"⟩]) ∧
    ((commit git msg).1 = false → logEntries (commit git msg).2
        = [⟨"Git Commit Fehler:\n"
              ++ (run_git_command git ["git", "commit", "-m", msg]).2.2,
            "GitSync Error"⟩]) ∧
    ((push git).1 = false → logEntries (push git).2
        = [⟨"Git Push Fehler:\n" ++ (run_git_command git ["git", "push"]).2.2,
            "GitSync Error"⟩]) := by
  refine ⟨?_, ?_, ?_, ?_⟩
  · unfold pull
    dsimp only
    split
    · intro h
      simp at h
    · intro _
      rfl
  · unfold add_all
    dsimp only
    split
    · intro h
      simp at h
    · intro _
      rfl
  · unfold commit
    dsimp only
    split
    · intro h
      simp at h
    · split
      · intro h
        simp at h
      · intro _
        rfl
  · unfold push
    dsimp only
    split
    · intro h
      simp at h
    · intro _
      rfl

theorem primitive_failure_logs_stderr_witness :
    logEntries (pull gitFailAll).2
      = [⟨"Git Pull Fehler:\nfatal: err", "GitSync Error"⟩] ∧
    logEntries (add_all gitFailAll).2
      = [⟨"Git Add Fehler:\nfatal: err", "GitSync Error"⟩] ∧
    logEntries (commit gitFailAll "m").2
      = [⟨"Git Commit Fehler:\nfatal: err", "GitSync Error"⟩] ∧
    logEntries (push gitFailAll).2
      = [⟨"Git Push Fehler:\nfatal: err", "GitSync Error"⟩] :=
  ⟨(primitive_failure_logs_stderr gitFailAll "m").1 rfl,
   (primitive_failure_logs_stderr gitFailAll "m").2.1 rfl,
   (primitive_failure_logs_stderr gitFailAll "m").2.2.1 rfl,
   (primitive_failure_logs_stderr gitFailAll "m").2.2.2 rfl⟩

end GithubSync
